import Mathlib

/-!
Verification development for the PyCO2SYS repository (files
PyCO2SYS/convert.py and PyCO2SYS/uncertainty.py), shallowly embedded in
Lean 4.  Numeric values are modelled as exact rationals; the IEEE nan
sentinel used by the vectorized numpy code is modelled as the none case
of Option, and every numpy where-assignment is modelled per batch
element (the code is elementwise, with no cross-element coupling).  The
external autodiff primitives (autograd.elementwise_grad applied to the
closed-form relations of the solve.get module, which is not part of the
embedded sources) are modelled as opaque per-element gradient values
collected in a record; the functions under verification combine those
values but never inspect them.  The external np.log10 is likewise kept
opaque, passed as an explicit function argument.
-/

namespace PyCO2SYS

/-! ## convert.py: totals, equilibria and pH scale conversion factors -/

/-- Conservative totals used by the pH scale conversion factors
(fields TSO4 and TF of the totals dict). -/
structure Totals where
  TSO4 : ℚ
  TF : ℚ

/-- Equilibrium constants used by the pH scale conversion factors
(fields KSO4, KF and fH of the equilibria dict). -/
structure Equilibria where
  KSO4 : ℚ
  KF : ℚ
  fH : ℚ

/-- Free to Total pH scale conversion factor (convert.free2tot). -/
def free2tot (t : Totals) (e : Equilibria) : ℚ :=
  1 + t.TSO4 / e.KSO4

/-- Free to Seawater pH scale conversion factor (convert.free2sws). -/
def free2sws (t : Totals) (e : Equilibria) : ℚ :=
  1 + t.TSO4 / e.KSO4 + t.TF / e.KF

/-- Seawater to Free pH scale conversion factor (convert.sws2free). -/
def sws2free (t : Totals) (e : Equilibria) : ℚ :=
  1 / free2sws t e

/-- Seawater to Total pH scale conversion factor (convert.sws2tot). -/
def sws2tot (t : Totals) (e : Equilibria) : ℚ :=
  sws2free t e * free2tot t e

/-- Total to Free pH scale conversion factor (convert.tot2free). -/
def tot2free (t : Totals) (e : Equilibria) : ℚ :=
  1 / free2tot t e

/-- Total to Seawater pH scale conversion factor (convert.tot2sws). -/
def tot2sws (t : Totals) (e : Equilibria) : ℚ :=
  1 / sws2tot t e

/-- The four pH scale outputs of convert.pH2allscales, in the order the
Python function returns them.  A none entry models the nan sentinel. -/
structure AllScales where
  tot : Option ℚ
  sws : Option ℚ
  free : Option ℚ
  nbs : Option ℚ
deriving DecidableEq

/-- convert.pH2allscales for one batch element.  The external np.log10
primitive is passed as the opaque argument f.  The factor starts as the
nan sentinel (np.full(..., nan)) and each np.where assignment is
modelled by an if on the scale tag, in source order. -/
def pH2allscales (f : ℚ → ℚ) (pH : ℚ) (pHScale : ℕ) (t : Totals) (e : Equilibria) :
    AllScales :=
  let FREEtoTOT := free2tot t e
  let SWStoTOT := sws2tot t e
  let factor : Option ℚ := none
  let factor := if pHScale = 1 then some 0 else factor
  let factor := if pHScale = 2 then some (f SWStoTOT) else factor
  let factor := if pHScale = 3 then some (f FREEtoTOT) else factor
  let factor := if pHScale = 4 then some (f (SWStoTOT / e.fH)) else factor
  let pHtot := factor.map fun x => pH - x
  let pHNBS := pHtot.map fun p => p + f (SWStoTOT / e.fH)
  let pHfree := pHtot.map fun p => p + f FREEtoTOT
  let pHsws := pHtot.map fun p => p + f SWStoTOT
  ⟨pHtot, pHsws, pHfree, pHNBS⟩

/-! ## convert.py: legacy option code conversion -/

/-- The only2KSO4 lookup dict inside convert.options_old2new; a key
outside the dict raises KeyError, modelled as none. -/
def only2KSO4 (k : ℕ) : Option ℕ :=
  match k with
  | 1 => some 1
  | 2 => some 2
  | 3 => some 1
  | 4 => some 2
  | _ => none

/-- The only2BORON lookup dict inside convert.options_old2new. -/
def only2BORON (k : ℕ) : Option ℕ :=
  match k with
  | 1 => some 1
  | 2 => some 1
  | 3 => some 2
  | 4 => some 2
  | _ => none

/-- convert.options_old2new for one element: the separated
(KSO4CONSTANT, BORON) pair from a legacy combined KSO4CONSTANTS code. -/
def options_old2new (k : ℕ) : Option (ℕ × ℕ) :=
  match only2KSO4 k, only2BORON k with
  | some s, some b => some (s, b)
  | _, _ => none

/-- The pair2one lookup dict inside convert.options_new2old. -/
def pair2one (p : ℕ × ℕ) : Option ℕ :=
  match p with
  | (1, 1) => some 1
  | (2, 1) => some 2
  | (1, 2) => some 3
  | (2, 2) => some 4
  | _ => none

/-- convert.options_new2old for one element: the legacy combined code
from a separated (KSO4CONSTANT, BORON) pair. -/
def options_new2old (s b : ℕ) : Option ℕ :=
  pair2one (s, b)

/-! ## convert.py: input broadcasting -/

/-- convert._flattenfirst.  Arguments are modelled as flat lists of
rationals (np.size is the length; the dtype cast is the identity here).
The assert is checked first; if it passes, np.max of the sizes is taken
(raising on an empty argument tuple, modelled by the max? = none
branch), and each size-1 argument is broadcast with np.full while any
other argument is returned as ravel leaves it. -/
def _flattenfirst (args : List (List ℚ)) : Except String (List (List ℚ) × ℕ) :=
  let arglengths := args.map List.length
  if ((arglengths.filter fun n => n ≠ 1).dedup).length ≤ 1 then
    match arglengths.max? with
    | none => Except.error "zero-size array to reduction operation maximum"
    | some npts =>
        Except.ok
          (args.map fun a => if a.length = 1 then List.replicate npts a.headI else a,
            npts)
  else Except.error "Inputs must all be the same length as each other or of length 1."

/-! ## uncertainty.py: validation in uncertainty.inputs -/

/-- The can_grad_wrt list of uncertainty.inputs. -/
def can_grad_wrt : List String :=
  ["PAR1", "PAR2", "SAL", "TEMPIN", "TEMPOUT", "PRESIN", "PRESOUT",
   "SI", "PO4", "NH3", "H2S"]

/-- A Python argument that is either a single string or a list of
strings, as accepted for grads_of and grads_wrt. -/
inductive PyArg where
  | str (s : String)
  | list (l : List String)

/-- Python membership test of a grads argument in a list of strings: a
string is a member iff it occurs in the list; a list never equals any
string element, so the test is False. -/
def pyMem (a : PyArg) (l : List String) : Bool :=
  match a with
  | .str s => l.contains s
  | .list _ => false

/-- The grads_of half of the validation in uncertainty.inputs (lines
50-56): the bare assert for the single-string form, resolution of the
"all" shorthand, then the assert with the descriptive message.  The
gradable output names (engine.gradables, a module not part of the
embedded sources) are an opaque list parameter.  On success, returns
the resolved grads_of list together with the already resolved
grads_wrt list. -/
def inputsChecksOf (gradables : List String) (grads_of : PyArg) (wrt : List String) :
    Except String (List String × List String) :=
  match grads_of with
  | .str s =>
      if s = "all" ∨ gradables.contains s then
        if (if s = "all" then gradables else [s]).all fun n => gradables.contains n then
          Except.ok (if s = "all" then gradables else [s], wrt)
        else Except.error "Invalid `grads_of` requested."
      else Except.error "AssertionError"
  | .list l =>
      if l.all fun n => gradables.contains n then Except.ok (l, wrt)
      else Except.error "Invalid `grads_of` requested."

/-- The grads_wrt half of the validation in uncertainty.inputs (lines
41-49) followed by the grads_of half: the bare assert for the
single-string form (whose condition tests grads_of, exactly as the
source does), resolution of the "all" shorthand, then the assert with
the descriptive message.  Derivatives are only computed after this
returns ok, so an error here models a rejection before any derivative
is computed. -/
def inputsChecks (gradables : List String) (grads_of grads_wrt : PyArg) :
    Except String (List String × List String) :=
  match grads_wrt with
  | .str s =>
      if s = "all" ∨ pyMem grads_of can_grad_wrt then
        if (if s = "all" then can_grad_wrt else [s]).all fun n => can_grad_wrt.contains n then
          inputsChecksOf gradables grads_of (if s = "all" then can_grad_wrt else [s])
        else Except.error "Invalid `grads_wrt` requested."
      else Except.error "AssertionError"
  | .list l =>
      if l.all fun n => can_grad_wrt.contains n then
        inputsChecksOf gradables grads_of l
      else Except.error "Invalid `grads_wrt` requested."

/-! ## uncertainty.py: dcore_dparX__parY -/

/-- The per-element values of the autograd elementwise gradients that
uncertainty.dcore_dparX__parY obtains by differentiating the
closed-form relations of solve.get with respect to pH (or directly with
respect to the parX variable, for the cases differentiated directly).
Field dA_dB__C is the derivative of A with respect to B at constant C
evaluated at the solved state; the values are opaque to the dispatch
logic under verification. -/
structure Grads where
  dTA_dPH__TC : ℚ
  dFC_dPH__TC : ℚ
  dCARB_dPH__TC : ℚ
  dHCO3_dPH__TC : ℚ
  dTC_dPH__TA : ℚ
  dFC_dPH__TA : ℚ
  dCARB_dPH__TA : ℚ
  dHCO3_dPH__TA : ℚ
  dTC_dPH__CARB : ℚ
  dTA_dPH__CARB : ℚ
  dFC_dPH__CARB : ℚ
  dHCO3_dPH__CARB : ℚ
  dTC_dPH__HCO3 : ℚ
  dTA_dPH__HCO3 : ℚ
  dFC_dPH__HCO3 : ℚ
  dCARB_dPH__HCO3 : ℚ
  dTA_dPH__FC : ℚ
  dTC_dPH__FC : ℚ
  dCARB_dPH__FC : ℚ
  dHCO3_dPH__FC : ℚ
  dTC_dTA__PH : ℚ
  dFC_dTA__PH : ℚ
  dCARB_dTA__PH : ℚ
  dHCO3_dTA__PH : ℚ
  dTA_dTC__PH : ℚ
  dFC_dTC__PH : ℚ
  dCARB_dTC__PH : ℚ
  dHCO3_dTC__PH : ℚ
  dTA_dFC__PH : ℚ
  dTC_dFC__PH : ℚ
  dCARB_dFC__PH : ℚ
  dHCO3_dFC__PH : ℚ
  dTA_dFC__CARB : ℚ
  dTC_dFC__CARB : ℚ
  dPH_dFC__CARB : ℚ
  dHCO3_dFC__CARB : ℚ
  dTA_dFC__HCO3 : ℚ
  dTC_dFC__HCO3 : ℚ
  dPH_dFC__HCO3 : ℚ
  dCARB_dFC__HCO3 : ℚ
  dTA_dCARB__PH : ℚ
  dTC_dCARB__PH : ℚ
  dFC_dCARB__PH : ℚ
  dHCO3_dCARB__PH : ℚ
  dTA_dCARB__FC : ℚ
  dTC_dCARB__FC : ℚ
  dPH_dCARB__FC : ℚ
  dHCO3_dCARB__FC : ℚ
  dTA_dCARB__HCO3 : ℚ
  dTC_dCARB__HCO3 : ℚ
  dPH_dCARB__HCO3 : ℚ
  dFC_dCARB__HCO3 : ℚ
  dTC_dHCO3__PH : ℚ
  dTA_dHCO3__PH : ℚ
  dFC_dHCO3__PH : ℚ
  dCARB_dHCO3__PH : ℚ
  dTA_dHCO3__FC : ℚ
  dTC_dHCO3__FC : ℚ
  dPH_dHCO3__FC : ℚ
  dCARB_dHCO3__FC : ℚ
  dTA_dHCO3__CARB : ℚ
  dTC_dHCO3__CARB : ℚ
  dPH_dHCO3__CARB : ℚ
  dFC_dHCO3__CARB : ℚ

/-- The six preallocated derivative arrays of dcore_dparX__parY, one
batch element each; none models the nan preallocation. -/
structure Derivs6 where
  TA : Option ℚ
  TC : Option ℚ
  PH : Option ℚ
  FC : Option ℚ
  CARB : Option ℚ
  HCO3 : Option ℚ

/-- One np.where masked assignment for a single batch element: if the
mask holds here, the new value, otherwise the previous entry. -/
def W (c : Bool) (v : ℚ) (old : Option ℚ) : Option ℚ :=
  cond c (some v) old

/-- The assignment section of uncertainty.dcore_dparX__parY (the
preallocation and the where-masked assignments, source lines 282-517)
for one batch element with parXtype x and parYtype y.  The case
specific quotient intermediates of source lines 136-281 are inlined at
their unique use sites; the directly differentiated intermediates are
fields of g. -/
def coreAssign (x y : ℕ) (g : Grads) : Derivs6 :=
  let dTA : Option ℚ := none
  let dTC : Option ℚ := none
  let dPH : Option ℚ := none
  let dFC : Option ℚ := none
  let dCARB : Option ℚ := none
  let dHCO3 : Option ℚ := none
  -- parXtype == 1 (TA)
  let dTA := W (x == 1) 1 dTA
  let dTC := W (x == 1 && y == 2) 0 dTC
  let dPH := W (x == 1 && y == 2) (1 / g.dTA_dPH__TC) dPH
  let dFC := W (x == 1 && y == 2) (g.dFC_dPH__TC / g.dTA_dPH__TC) dFC
  let dCARB := W (x == 1 && y == 2) (g.dCARB_dPH__TC / g.dTA_dPH__TC) dCARB
  let dHCO3 := W (x == 1 && y == 2) (g.dHCO3_dPH__TC / g.dTA_dPH__TC) dHCO3
  let dTC := W (x == 1 && y == 3) g.dTC_dTA__PH dTC
  let dPH := W (x == 1 && y == 3) 0 dPH
  let dFC := W (x == 1 && y == 3) g.dFC_dTA__PH dFC
  let dCARB := W (x == 1 && y == 3) g.dCARB_dTA__PH dCARB
  let dHCO3 := W (x == 1 && y == 3) g.dHCO3_dTA__PH dHCO3
  let dTC := W (x == 1 && (y == 4 || y == 5 || y == 8)) (g.dTC_dPH__FC / g.dTA_dPH__FC) dTC
  let dPH := W (x == 1 && (y == 4 || y == 5 || y == 8)) (1 / g.dTA_dPH__FC) dPH
  let dFC := W (x == 1 && (y == 4 || y == 5 || y == 8)) 0 dFC
  let dCARB := W (x == 1 && (y == 4 || y == 5 || y == 8)) (g.dCARB_dPH__FC / g.dTA_dPH__FC) dCARB
  let dHCO3 := W (x == 1 && (y == 4 || y == 5 || y == 8)) (g.dHCO3_dPH__FC / g.dTA_dPH__FC) dHCO3
  let dTC := W (x == 1 && y == 6) (g.dTC_dPH__CARB / g.dTA_dPH__CARB) dTC
  let dPH := W (x == 1 && y == 6) (1 / g.dTA_dPH__CARB) dPH
  let dFC := W (x == 1 && y == 6) (g.dFC_dPH__CARB / g.dTA_dPH__CARB) dFC
  let dCARB := W (x == 1 && y == 6) 0 dCARB
  let dHCO3 := W (x == 1 && y == 6) (g.dHCO3_dPH__CARB / g.dTA_dPH__CARB) dHCO3
  let dTC := W (x == 1 && y == 7) (g.dTC_dPH__HCO3 / g.dTA_dPH__HCO3) dTC
  let dPH := W (x == 1 && y == 7) (1 / g.dTA_dPH__HCO3) dPH
  let dFC := W (x == 1 && y == 7) (g.dFC_dPH__HCO3 / g.dTA_dPH__HCO3) dFC
  let dCARB := W (x == 1 && y == 7) (g.dCARB_dPH__HCO3 / g.dTA_dPH__HCO3) dCARB
  let dHCO3 := W (x == 1 && y == 7) 0 dHCO3
  -- parXtype == 2 (TC)
  let dTC := W (x == 2) 1 dTC
  let dTA := W (x == 2 && y == 1) 0 dTA
  let dPH := W (x == 2 && y == 1) (1 / g.dTC_dPH__TA) dPH
  let dFC := W (x == 2 && y == 1) (g.dFC_dPH__TA / g.dTC_dPH__TA) dFC
  let dCARB := W (x == 2 && y == 1) (g.dCARB_dPH__TA / g.dTC_dPH__TA) dCARB
  let dHCO3 := W (x == 2 && y == 1) (g.dHCO3_dPH__TA / g.dTC_dPH__TA) dHCO3
  let dTA := W (x == 2 && y == 3) g.dTA_dTC__PH dTA
  let dPH := W (x == 2 && y == 3) 0 dPH
  let dFC := W (x == 2 && y == 3) g.dFC_dTC__PH dFC
  let dCARB := W (x == 2 && y == 3) g.dCARB_dTC__PH dCARB
  let dHCO3 := W (x == 2 && y == 3) g.dHCO3_dTC__PH dHCO3
  let dTA := W (x == 2 && (y == 4 || y == 5 || y == 8)) (g.dTA_dPH__FC / g.dTC_dPH__FC) dTA
  let dPH := W (x == 2 && (y == 4 || y == 5 || y == 8)) (1 / g.dTC_dPH__FC) dPH
  let dFC := W (x == 2 && (y == 4 || y == 5 || y == 8)) 0 dFC
  let dCARB := W (x == 2 && (y == 4 || y == 5 || y == 8)) (g.dCARB_dPH__FC / g.dTC_dPH__FC) dCARB
  let dHCO3 := W (x == 2 && (y == 4 || y == 5 || y == 8)) (g.dHCO3_dPH__FC / g.dTC_dPH__FC) dHCO3
  let dTA := W (x == 2 && y == 6) (g.dTA_dPH__CARB / g.dTC_dPH__CARB) dTA
  let dPH := W (x == 2 && y == 6) (1 / g.dTC_dPH__CARB) dPH
  let dFC := W (x == 2 && y == 6) (g.dFC_dPH__CARB / g.dTC_dPH__CARB) dFC
  let dCARB := W (x == 2 && y == 6) 0 dCARB
  let dHCO3 := W (x == 2 && y == 6) (g.dHCO3_dPH__CARB / g.dTC_dPH__CARB) dHCO3
  let dTA := W (x == 2 && y == 7) (g.dTA_dPH__HCO3 / g.dTC_dPH__HCO3) dTA
  let dPH := W (x == 2 && y == 7) (1 / g.dTC_dPH__HCO3) dPH
  let dFC := W (x == 2 && y == 7) (g.dFC_dPH__HCO3 / g.dTC_dPH__HCO3) dFC
  let dCARB := W (x == 2 && y == 7) (g.dCARB_dPH__HCO3 / g.dTC_dPH__HCO3) dCARB
  let dHCO3 := W (x == 2 && y == 7) 0 dHCO3
  -- parXtype == 3 (PH)
  let dPH := W (x == 3) 1 dPH
  let dTA := W (x == 3 && y == 1) 0 dTA
  let dTC := W (x == 3 && y == 1) g.dTC_dPH__TA dTC
  let dFC := W (x == 3 && y == 1) g.dFC_dPH__TA dFC
  let dCARB := W (x == 3 && y == 1) g.dCARB_dPH__TA dCARB
  let dHCO3 := W (x == 3 && y == 1) g.dHCO3_dPH__TA dHCO3
  let dTA := W (x == 3 && y == 2) g.dTA_dPH__TC dTA
  let dTC := W (x == 3 && y == 2) 0 dTC
  let dFC := W (x == 3 && y == 2) g.dFC_dPH__TC dFC
  let dCARB := W (x == 3 && y == 2) g.dCARB_dPH__TC dCARB
  let dHCO3 := W (x == 3 && y == 2) g.dHCO3_dPH__TC dHCO3
  let dTA := W (x == 3 && (y == 4 || y == 5 || y == 8)) g.dTA_dPH__FC dTA
  let dTC := W (x == 3 && (y == 4 || y == 5 || y == 8)) g.dTC_dPH__FC dTC
  let dFC := W (x == 3 && (y == 4 || y == 5 || y == 8)) 0 dFC
  let dCARB := W (x == 3 && (y == 4 || y == 5 || y == 8)) g.dCARB_dPH__FC dCARB
  let dHCO3 := W (x == 3 && (y == 4 || y == 5 || y == 8)) g.dHCO3_dPH__FC dHCO3
  let dTA := W (x == 3 && y == 6) g.dTA_dPH__CARB dTA
  let dTC := W (x == 3 && y == 6) g.dTC_dPH__CARB dTC
  let dFC := W (x == 3 && y == 6) g.dFC_dPH__CARB dFC
  let dCARB := W (x == 3 && y == 6) 0 dCARB
  let dHCO3 := W (x == 3 && y == 6) g.dHCO3_dPH__CARB dHCO3
  let dTA := W (x == 3 && y == 7) g.dTA_dPH__HCO3 dTA
  let dTC := W (x == 3 && y == 7) g.dTC_dPH__HCO3 dTC
  let dFC := W (x == 3 && y == 7) g.dFC_dPH__HCO3 dFC
  let dCARB := W (x == 3 && y == 7) g.dCARB_dPH__HCO3 dCARB
  let dHCO3 := W (x == 3 && y == 7) 0 dHCO3
  -- parXtype in [4, 5, 8] (PC | FC | CO2)
  let grp := x == 4 || x == 5 || x == 8
  let dFC := W grp 1 dFC
  let dTA := W (grp && y == 1) 0 dTA
  let dTC := W (grp && y == 1) (g.dTC_dPH__TA / g.dFC_dPH__TA) dTC
  let dPH := W (grp && y == 1) (1 / g.dFC_dPH__TA) dPH
  let dCARB := W (grp && y == 1) (g.dCARB_dPH__TA / g.dFC_dPH__TA) dCARB
  let dHCO3 := W (grp && y == 1) (g.dHCO3_dPH__TA / g.dFC_dPH__TA) dHCO3
  let dTA := W (grp && y == 2) (g.dTA_dPH__TC / g.dFC_dPH__TC) dTA
  let dTC := W (grp && y == 2) 0 dTC
  let dPH := W (grp && y == 2) (1 / g.dFC_dPH__TC) dPH
  let dCARB := W (grp && y == 2) (g.dCARB_dPH__TC / g.dFC_dPH__TC) dCARB
  let dHCO3 := W (grp && y == 2) (g.dHCO3_dPH__TC / g.dFC_dPH__TC) dHCO3
  let dTA := W (grp && y == 3) g.dTA_dFC__PH dTA
  let dTC := W (grp && y == 3) g.dTC_dFC__PH dTC
  let dPH := W (grp && y == 3) 0 dPH
  let dCARB := W (grp && y == 3) g.dCARB_dFC__PH dCARB
  let dHCO3 := W (grp && y == 3) g.dHCO3_dFC__PH dHCO3
  let dTA := W (grp && y == 6) g.dTA_dFC__CARB dTA
  let dTC := W (grp && y == 6) g.dTC_dFC__CARB dTC
  let dPH := W (grp && y == 6) g.dPH_dFC__CARB dPH
  let dCARB := W (grp && y == 6) 0 dCARB
  let dHCO3 := W (grp && y == 6) g.dHCO3_dFC__CARB dHCO3
  let dTA := W (grp && y == 7) g.dTA_dFC__HCO3 dTA
  let dTC := W (grp && y == 7) g.dTC_dFC__HCO3 dTC
  let dPH := W (grp && y == 7) g.dPH_dFC__HCO3 dPH
  let dCARB := W (grp && y == 7) g.dCARB_dFC__HCO3 dCARB
  let dHCO3 := W (grp && y == 7) 0 dHCO3
  -- parXtype == 6 (CARB)
  let dCARB := W (x == 6) 1 dCARB
  let dTA := W (x == 6 && y == 1) 0 dTA
  let dTC := W (x == 6 && y == 1) (g.dTC_dPH__TA / g.dCARB_dPH__TA) dTC
  let dPH := W (x == 6 && y == 1) (1 / g.dCARB_dPH__TA) dPH
  let dFC := W (x == 6 && y == 1) (g.dFC_dPH__TA / g.dCARB_dPH__TA) dFC
  let dHCO3 := W (x == 6 && y == 1) (g.dHCO3_dPH__TA / g.dCARB_dPH__TA) dHCO3
  let dTA := W (x == 6 && y == 2) (g.dTA_dPH__TC / g.dCARB_dPH__TC) dTA
  let dTC := W (x == 6 && y == 2) 0 dTC
  let dPH := W (x == 6 && y == 2) (1 / g.dCARB_dPH__TC) dPH
  let dFC := W (x == 6 && y == 2) (g.dFC_dPH__TC / g.dCARB_dPH__TC) dFC
  let dHCO3 := W (x == 6 && y == 2) (g.dHCO3_dPH__TC / g.dCARB_dPH__TC) dHCO3
  let dTA := W (x == 6 && y == 3) g.dTA_dCARB__PH dTA
  let dTC := W (x == 6 && y == 3) g.dTC_dCARB__PH dTC
  let dPH := W (x == 6 && y == 3) 0 dPH
  let dFC := W (x == 6 && y == 3) g.dFC_dCARB__PH dFC
  let dHCO3 := W (x == 6 && y == 3) g.dHCO3_dCARB__PH dHCO3
  let dTA := W (x == 6 && (y == 4 || y == 5 || y == 8)) g.dTA_dCARB__FC dTA
  let dTC := W (x == 6 && (y == 4 || y == 5 || y == 8)) g.dTC_dCARB__FC dTC
  let dPH := W (x == 6 && (y == 4 || y == 5 || y == 8)) g.dPH_dCARB__FC dPH
  let dFC := W (x == 6 && (y == 4 || y == 5 || y == 8)) 0 dFC
  let dHCO3 := W (x == 6 && (y == 4 || y == 5 || y == 8)) g.dHCO3_dCARB__FC dHCO3
  let dTA := W (x == 6 && y == 7) g.dTA_dCARB__HCO3 dTA
  let dTC := W (x == 6 && y == 7) g.dTC_dCARB__HCO3 dTC
  let dPH := W (x == 6 && y == 7) g.dPH_dCARB__HCO3 dPH
  let dFC := W (x == 6 && y == 7) g.dFC_dCARB__HCO3 dFC
  let dHCO3 := W (x == 6 && y == 7) 0 dHCO3
  -- parXtype == 7 (HCO3)
  let dHCO3 := W (x == 7) 1 dHCO3
  let dTA := W (x == 7 && y == 1) 0 dTA
  let dTC := W (x == 7 && y == 1) (g.dTC_dPH__TA / g.dHCO3_dPH__TA) dTC
  let dPH := W (x == 7 && y == 1) (1 / g.dHCO3_dPH__TA) dPH
  let dFC := W (x == 7 && y == 1) (g.dFC_dPH__TA / g.dHCO3_dPH__TA) dFC
  let dCARB := W (x == 7 && y == 1) (g.dCARB_dPH__TA / g.dHCO3_dPH__TA) dCARB
  let dTA := W (x == 7 && y == 2) (g.dTA_dPH__TC / g.dHCO3_dPH__TC) dTA
  let dTC := W (x == 7 && y == 2) 0 dTC
  let dPH := W (x == 7 && y == 2) (1 / g.dHCO3_dPH__TC) dPH
  let dFC := W (x == 7 && y == 2) (g.dFC_dPH__TC / g.dHCO3_dPH__TC) dFC
  let dCARB := W (x == 7 && y == 2) (g.dCARB_dPH__TC / g.dHCO3_dPH__TC) dCARB
  let dTA := W (x == 7 && y == 3) g.dTA_dHCO3__PH dTA
  let dTC := W (x == 7 && y == 3) g.dTC_dHCO3__PH dTC
  let dPH := W (x == 7 && y == 3) 0 dPH
  let dFC := W (x == 7 && y == 3) g.dFC_dHCO3__PH dFC
  let dCARB := W (x == 7 && y == 3) g.dCARB_dHCO3__PH dCARB
  let dTA := W (x == 7 && (y == 4 || y == 5 || y == 8)) g.dTA_dHCO3__FC dTA
  let dTC := W (x == 7 && (y == 4 || y == 5 || y == 8)) g.dTC_dHCO3__FC dTC
  let dPH := W (x == 7 && (y == 4 || y == 5 || y == 8)) g.dPH_dHCO3__FC dPH
  let dFC := W (x == 7 && (y == 4 || y == 5 || y == 8)) 0 dFC
  let dCARB := W (x == 7 && (y == 4 || y == 5 || y == 8)) g.dCARB_dHCO3__FC dCARB
  let dTA := W (x == 7 && y == 6) g.dTA_dHCO3__CARB dTA
  let dTC := W (x == 7 && y == 6) g.dTC_dHCO3__CARB dTC
  let dPH := W (x == 7 && y == 6) g.dPH_dHCO3__CARB dPH
  let dFC := W (x == 7 && y == 6) g.dFC_dHCO3__CARB dFC
  let dCARB := W (x == 7 && y == 6) 0 dCARB
  ⟨dTA, dTC, dPH, dFC, dCARB, dHCO3⟩

/-- The eight derivatives returned by dcore_dparX__parY for one batch
element, in the order of the returned dict. -/
structure CoreDerivs where
  TA : Option ℚ
  TC : Option ℚ
  PH : Option ℚ
  PC : Option ℚ
  FC : Option ℚ
  CARB : Option ℚ
  HCO3 : Option ℚ
  CO2 : Option ℚ

/-- Apply a correction factor to every entry of the derivative dict, as
the trailing where blocks of dcore_dparX__parY do when parXtype is 4 or
8 (nan entries stay nan). -/
def mapAll (f : ℚ → ℚ) (r : CoreDerivs) : CoreDerivs :=
  ⟨r.TA.map f, r.TC.map f, r.PH.map f, r.PC.map f, r.FC.map f, r.CARB.map f,
   r.HCO3.map f, r.CO2.map f⟩

/-- uncertainty.dcore_dparX__parY for one batch element: the assignment
section, then the pCO2 and CO2(aq) derivatives from the fCO2 one, then
the corrections applied where parXtype is 4 (multiply every entry by
the fugacity factor) or 8 (divide every entry by K0). -/
def dcore_dparX__parY (x y : ℕ) (g : Grads) (K0 FugFac : ℚ) : CoreDerivs :=
  let a := coreAssign x y g
  let dPC := a.FC.map fun v => v / FugFac
  let dCO2 := a.FC.map fun v => v * K0
  let r : CoreDerivs := ⟨a.TA, a.TC, a.PH, dPC, a.FC, a.CARB, a.HCO3, dCO2⟩
  let r := cond (x == 4) (mapAll (fun v => v * FugFac) r) r
  cond (x == 8) (mapAll (fun v => v / K0) r) r

/-- The derivative entry playing the role of input type t: 1 TA, 2 TC,
3 pH, 4 pCO2, 5 fCO2, 6 CARB, 7 HCO3, 8 CO2(aq). -/
def varAt (t : ℕ) (r : CoreDerivs) : Option ℚ :=
  match t with
  | 1 => r.TA
  | 2 => r.TC
  | 3 => r.PH
  | 4 => r.PC
  | 5 => r.FC
  | 6 => r.CARB
  | 7 => r.HCO3
  | 8 => r.CO2
  | _ => none

/-- The core role of an input type code: types 4, 5 and 8 all denote
the CO2 fugacity role; every other code is its own role. -/
def role (t : ℕ) : ℕ :=
  if t == 4 || t == 5 || t == 8 then 5 else t

/-- A valid ordered pair of input type codes naming two distinct core
roles. -/
def validPair (x y : ℕ) : Prop :=
  x ∈ [1, 2, 3, 4, 5, 6, 7, 8] ∧ y ∈ [1, 2, 3, 4, 5, 6, 7, 8] ∧ role x ≠ role y

instance (x y : ℕ) : Decidable (validPair x y) := by
  unfold validPair; infer_instance

/-- The per-scale conversion factor actually subtracted from the input
pH by pH2allscales: 0 for Total, the log of the Seawater to Total
factor for Seawater, the log of the Free to Total factor for Free, and
the log of the Seawater to Total factor over fH for NBS.  This is the
claimed factor table with the Seawater to Total ratio corrected to the
one the source computes (sws2tot, not free2sws). -/
def scaleFactor (f : ℚ → ℚ) (s : ℕ) (t : Totals) (e : Equilibria) : ℚ :=
  if s = 1 then 0
  else if s = 2 then f (sws2tot t e)
  else if s = 3 then f (free2tot t e)
  else f (sws2tot t e / e.fH)

/-- A concrete gradient record for witnesses. -/
def gOne : Grads :=
  ⟨1, 1, 1, 1, 1, 1, 1, 1, 1, 1, 1, 1, 1, 1, 1, 1,
   1, 1, 1, 1, 1, 1, 1, 1, 1, 1, 1, 1, 1, 1, 1, 1,
   1, 1, 1, 1, 1, 1, 1, 1, 1, 1, 1, 1, 1, 1, 1, 1,
   1, 1, 1, 1, 1, 1, 1, 1, 1, 1, 1, 1, 1, 1, 1, 1⟩

/-! ## Theorems -/

/-- C10: for a pHScale tag outside 1..4, the conversion factor is left
as the nan sentinel, so all four pH outputs of pH2allscales are nan
(modelled as none) and no exception is raised (the embedding is a total
function). -/
theorem pH2allscales_invalid_scale_nan (f : ℚ → ℚ) (pH : ℚ) (s : ℕ) (t : Totals)
    (e : Equilibria) (h1 : s ≠ 1) (h2 : s ≠ 2) (h3 : s ≠ 3) (h4 : s ≠ 4) :
    pH2allscales f pH s t e = ⟨none, none, none, none⟩ := by
  simp [pH2allscales, h1, h2, h3, h4]

/-- Witness for pH2allscales_invalid_scale_nan at scale tag 5. -/
theorem pH2allscales_invalid_scale_nan_witness :
    ((5 : ℕ) ≠ 1 ∧ (5 : ℕ) ≠ 2 ∧ (5 : ℕ) ≠ 3 ∧ (5 : ℕ) ≠ 4) ∧
    pH2allscales id 0 5 ⟨1, 1⟩ ⟨1, 1, 1⟩ = ⟨none, none, none, none⟩ :=
  ⟨⟨by decide, by decide, by decide, by decide⟩,
   pH2allscales_invalid_scale_nan id 0 5 ⟨1, 1⟩ ⟨1, 1, 1⟩
     (by decide) (by decide) (by decide) (by decide)⟩

/-- C5: feeding the Seawater output of a Total scale call of
pH2allscales back in on the Seawater scale returns the original pH as
pH total, exactly (the log factor cancels algebraically, for any value
of the opaque log10); likewise for the Free and NBS round trips. -/
theorem pH2allscales_roundtrip (f : ℚ → ℚ) (pH : ℚ) (t : Totals) (e : Equilibria)
    (h1 : 0 < e.KSO4) (h2 : 0 < e.KF) (h3 : 0 < e.fH) :
    ((pH2allscales f pH 1 t e).sws.map fun p => (pH2allscales f p 2 t e).tot) =
      some (some pH) ∧
    ((pH2allscales f pH 1 t e).free.map fun p => (pH2allscales f p 3 t e).tot) =
      some (some pH) ∧
    ((pH2allscales f pH 1 t e).nbs.map fun p => (pH2allscales f p 4 t e).tot) =
      some (some pH) := by
  refine ⟨?_, ?_, ?_⟩ <;> simp [pH2allscales]

/-- Witness for pH2allscales_roundtrip at concrete inputs. -/
theorem pH2allscales_roundtrip_witness :
    ((0 : ℚ) < 1 ∧ (0 : ℚ) < 1 ∧ (0 : ℚ) < 1) ∧
    (((pH2allscales id 7 1 ⟨1, 1⟩ ⟨1, 1, 1⟩).sws.map
        fun p => (pH2allscales id p 2 ⟨1, 1⟩ ⟨1, 1, 1⟩).tot) = some (some 7) ∧
     ((pH2allscales id 7 1 ⟨1, 1⟩ ⟨1, 1, 1⟩).free.map
        fun p => (pH2allscales id p 3 ⟨1, 1⟩ ⟨1, 1, 1⟩).tot) = some (some 7) ∧
     ((pH2allscales id 7 1 ⟨1, 1⟩ ⟨1, 1, 1⟩).nbs.map
        fun p => (pH2allscales id p 4 ⟨1, 1⟩ ⟨1, 1, 1⟩).tot) = some (some 7)) :=
  ⟨⟨by norm_num, by norm_num, by norm_num⟩,
   pH2allscales_roundtrip id 7 ⟨1, 1⟩ ⟨1, 1, 1⟩ (by norm_num) (by norm_num) (by norm_num)⟩

/-- C3 counterexample: the claim defines the Seawater factor as
log10(FREEtoTOT + TF/KF), but the source computes it as
log10(sws2tot) with sws2tot = FREEtoTOT / (FREEtoTOT + TF/KF).  At
TSO4 = TF = KSO4 = KF = fH = 1 the two log arguments are 2/3 and 3, so
any injective log10 (in particular the real log10, and here the
identity standing for the opaque log10) distinguishes them: the
pH total output differs from the claimed value. -/
theorem pH2allscales_sws_factor_cex :
    free2tot ⟨1, 1⟩ ⟨1, 1, 1⟩ + (1 : ℚ) / 1 = 3 ∧
    sws2tot ⟨1, 1⟩ ⟨1, 1, 1⟩ = 2 / 3 ∧
    (pH2allscales id 0 2 ⟨1, 1⟩ ⟨1, 1, 1⟩).tot = some (0 - (2 / 3 : ℚ)) ∧
    (pH2allscales id 0 2 ⟨1, 1⟩ ⟨1, 1, 1⟩).tot ≠
      some (0 - (free2tot ⟨1, 1⟩ ⟨1, 1, 1⟩ + (1 : ℚ) / 1)) := by
  refine ⟨by norm_num [free2tot], by norm_num [sws2tot, sws2free, free2sws, free2tot],
    ?_, ?_⟩ <;>
    norm_num [pH2allscales, sws2tot, sws2free, free2sws, free2tot]

/-- C3 as amended: pH2allscales computes pH total as the input pH minus
a per-scale factor — 0 for Total, log10(SWStoTOT) for Seawater,
log10(FREEtoTOT) for Free, log10(SWStoTOT / fH) for NBS — where
FREEtoTOT = 1 + TSO4/KSO4 and SWStoTOT = FREEtoTOT / (FREEtoTOT +
TF/KF) (the source sws2tot, correcting the claimed FREEtoTOT + TF/KF);
the other three scale outputs are pH total plus the corresponding log
ratio. -/
theorem pH2allscales_factor_table (f : ℚ → ℚ) (pH : ℚ) (s : ℕ) (t : Totals)
    (e : Equilibria) (h1 : 0 < e.KSO4) (h2 : 0 < e.KF) (h3 : 0 < e.fH)
    (hs : s ∈ [1, 2, 3, 4]) :
    pH2allscales f pH s t e =
      ⟨some (pH - scaleFactor f s t e),
       some (pH - scaleFactor f s t e + f (sws2tot t e)),
       some (pH - scaleFactor f s t e + f (free2tot t e)),
       some (pH - scaleFactor f s t e + f (sws2tot t e / e.fH))⟩ := by
  fin_cases hs <;> simp [pH2allscales, scaleFactor]

/-- Witness for pH2allscales_factor_table on the Seawater scale. -/
theorem pH2allscales_factor_table_witness :
    ((0 : ℚ) < 1 ∧ (2 : ℕ) ∈ [1, 2, 3, 4]) ∧
    pH2allscales id 7 2 ⟨1, 1⟩ ⟨1, 1, 1⟩ =
      ⟨some (7 - scaleFactor id 2 ⟨1, 1⟩ ⟨1, 1, 1⟩),
       some (7 - scaleFactor id 2 ⟨1, 1⟩ ⟨1, 1, 1⟩ + id (sws2tot ⟨1, 1⟩ ⟨1, 1, 1⟩)),
       some (7 - scaleFactor id 2 ⟨1, 1⟩ ⟨1, 1, 1⟩ + id (free2tot ⟨1, 1⟩ ⟨1, 1, 1⟩)),
       some (7 - scaleFactor id 2 ⟨1, 1⟩ ⟨1, 1, 1⟩ +
         id (sws2tot ⟨1, 1⟩ ⟨1, 1, 1⟩ / (⟨1, 1, 1⟩ : Equilibria).fH))⟩ :=
  ⟨⟨by norm_num, by decide⟩,
   pH2allscales_factor_table id 7 2 ⟨1, 1⟩ ⟨1, 1, 1⟩
     (by norm_num) (by norm_num) (by norm_num) (by decide)⟩

/-- C8: options_old2new and options_new2old are mutually inverse
between the legacy codes 1..4 and the separated (KSO4CONSTANT, BORON)
pairs in 1..2 squared. -/
theorem options_old2new_new2old_bijection (k s b : ℕ)
    (hk : k ∈ [1, 2, 3, 4]) (hs : s ∈ [1, 2]) (hb : b ∈ [1, 2]) :
    ((options_old2new k).bind fun p => options_new2old p.1 p.2) = some k ∧
    ((options_new2old s b).bind fun n => options_old2new n) = some (s, b) := by
  fin_cases hk <;> fin_cases hs <;> fin_cases hb <;> exact ⟨by decide, by decide⟩

/-- Witness for options_old2new_new2old_bijection at k = 3, (s, b) = (2, 1). -/
theorem options_old2new_new2old_bijection_witness :
    ((3 : ℕ) ∈ [1, 2, 3, 4] ∧ (2 : ℕ) ∈ [1, 2] ∧ (1 : ℕ) ∈ [1, 2]) ∧
    (((options_old2new 3).bind fun p => options_new2old p.1 p.2) = some 3 ∧
     ((options_new2old 2 1).bind fun n => options_old2new n) = some (2, 1)) :=
  ⟨⟨by decide, by decide, by decide⟩,
   options_old2new_new2old_bijection 3 2 1 (by decide) (by decide) (by decide)⟩

/-- C1: wherever dcore_dparX__parY obtains a derivative through the
implicit-function route, the value it returns (or, for parXtype 4 and
8, the value it assigns before the fugacity-factor/K0 correction, read
off the assignment stage coreAssign) is exactly the quotient of the
two automatic pH derivatives of the closed-form relations at fixed
parY: dO_dX__Y = dO_dPH__Y / dX_dPH__Y, and the pH entry is the
reciprocal 1 / dX_dPH__Y. -/
theorem dcore_implicit_quotients (g : Grads) (K0 FugFac : ℚ) :
    (dcore_dparX__parY 1 2 g K0 FugFac).PH = some (1 / g.dTA_dPH__TC) ∧
    (dcore_dparX__parY 1 2 g K0 FugFac).FC = some (g.dFC_dPH__TC / g.dTA_dPH__TC) ∧
    (dcore_dparX__parY 1 2 g K0 FugFac).CARB = some (g.dCARB_dPH__TC / g.dTA_dPH__TC) ∧
    (dcore_dparX__parY 1 2 g K0 FugFac).HCO3 = some (g.dHCO3_dPH__TC / g.dTA_dPH__TC) ∧
    (dcore_dparX__parY 1 4 g K0 FugFac).TC = some (g.dTC_dPH__FC / g.dTA_dPH__FC) ∧
    (dcore_dparX__parY 1 4 g K0 FugFac).PH = some (1 / g.dTA_dPH__FC) ∧
    (dcore_dparX__parY 1 4 g K0 FugFac).CARB = some (g.dCARB_dPH__FC / g.dTA_dPH__FC) ∧
    (dcore_dparX__parY 1 4 g K0 FugFac).HCO3 = some (g.dHCO3_dPH__FC / g.dTA_dPH__FC) ∧
    (dcore_dparX__parY 1 5 g K0 FugFac).TC = some (g.dTC_dPH__FC / g.dTA_dPH__FC) ∧
    (dcore_dparX__parY 1 5 g K0 FugFac).PH = some (1 / g.dTA_dPH__FC) ∧
    (dcore_dparX__parY 1 5 g K0 FugFac).CARB = some (g.dCARB_dPH__FC / g.dTA_dPH__FC) ∧
    (dcore_dparX__parY 1 5 g K0 FugFac).HCO3 = some (g.dHCO3_dPH__FC / g.dTA_dPH__FC) ∧
    (dcore_dparX__parY 1 8 g K0 FugFac).TC = some (g.dTC_dPH__FC / g.dTA_dPH__FC) ∧
    (dcore_dparX__parY 1 8 g K0 FugFac).PH = some (1 / g.dTA_dPH__FC) ∧
    (dcore_dparX__parY 1 8 g K0 FugFac).CARB = some (g.dCARB_dPH__FC / g.dTA_dPH__FC) ∧
    (dcore_dparX__parY 1 8 g K0 FugFac).HCO3 = some (g.dHCO3_dPH__FC / g.dTA_dPH__FC) ∧
    (dcore_dparX__parY 1 6 g K0 FugFac).TC = some (g.dTC_dPH__CARB / g.dTA_dPH__CARB) ∧
    (dcore_dparX__parY 1 6 g K0 FugFac).PH = some (1 / g.dTA_dPH__CARB) ∧
    (dcore_dparX__parY 1 6 g K0 FugFac).FC = some (g.dFC_dPH__CARB / g.dTA_dPH__CARB) ∧
    (dcore_dparX__parY 1 6 g K0 FugFac).HCO3 = some (g.dHCO3_dPH__CARB / g.dTA_dPH__CARB) ∧
    (dcore_dparX__parY 1 7 g K0 FugFac).TC = some (g.dTC_dPH__HCO3 / g.dTA_dPH__HCO3) ∧
    (dcore_dparX__parY 1 7 g K0 FugFac).PH = some (1 / g.dTA_dPH__HCO3) ∧
    (dcore_dparX__parY 1 7 g K0 FugFac).FC = some (g.dFC_dPH__HCO3 / g.dTA_dPH__HCO3) ∧
    (dcore_dparX__parY 1 7 g K0 FugFac).CARB = some (g.dCARB_dPH__HCO3 / g.dTA_dPH__HCO3) ∧
    (dcore_dparX__parY 2 1 g K0 FugFac).PH = some (1 / g.dTC_dPH__TA) ∧
    (dcore_dparX__parY 2 1 g K0 FugFac).FC = some (g.dFC_dPH__TA / g.dTC_dPH__TA) ∧
    (dcore_dparX__parY 2 1 g K0 FugFac).CARB = some (g.dCARB_dPH__TA / g.dTC_dPH__TA) ∧
    (dcore_dparX__parY 2 1 g K0 FugFac).HCO3 = some (g.dHCO3_dPH__TA / g.dTC_dPH__TA) ∧
    (dcore_dparX__parY 2 4 g K0 FugFac).TA = some (g.dTA_dPH__FC / g.dTC_dPH__FC) ∧
    (dcore_dparX__parY 2 4 g K0 FugFac).PH = some (1 / g.dTC_dPH__FC) ∧
    (dcore_dparX__parY 2 4 g K0 FugFac).CARB = some (g.dCARB_dPH__FC / g.dTC_dPH__FC) ∧
    (dcore_dparX__parY 2 4 g K0 FugFac).HCO3 = some (g.dHCO3_dPH__FC / g.dTC_dPH__FC) ∧
    (dcore_dparX__parY 2 5 g K0 FugFac).TA = some (g.dTA_dPH__FC / g.dTC_dPH__FC) ∧
    (dcore_dparX__parY 2 5 g K0 FugFac).PH = some (1 / g.dTC_dPH__FC) ∧
    (dcore_dparX__parY 2 5 g K0 FugFac).CARB = some (g.dCARB_dPH__FC / g.dTC_dPH__FC) ∧
    (dcore_dparX__parY 2 5 g K0 FugFac).HCO3 = some (g.dHCO3_dPH__FC / g.dTC_dPH__FC) ∧
    (dcore_dparX__parY 2 8 g K0 FugFac).TA = some (g.dTA_dPH__FC / g.dTC_dPH__FC) ∧
    (dcore_dparX__parY 2 8 g K0 FugFac).PH = some (1 / g.dTC_dPH__FC) ∧
    (dcore_dparX__parY 2 8 g K0 FugFac).CARB = some (g.dCARB_dPH__FC / g.dTC_dPH__FC) ∧
    (dcore_dparX__parY 2 8 g K0 FugFac).HCO3 = some (g.dHCO3_dPH__FC / g.dTC_dPH__FC) ∧
    (dcore_dparX__parY 2 6 g K0 FugFac).TA = some (g.dTA_dPH__CARB / g.dTC_dPH__CARB) ∧
    (dcore_dparX__parY 2 6 g K0 FugFac).PH = some (1 / g.dTC_dPH__CARB) ∧
    (dcore_dparX__parY 2 6 g K0 FugFac).FC = some (g.dFC_dPH__CARB / g.dTC_dPH__CARB) ∧
    (dcore_dparX__parY 2 6 g K0 FugFac).HCO3 = some (g.dHCO3_dPH__CARB / g.dTC_dPH__CARB) ∧
    (dcore_dparX__parY 2 7 g K0 FugFac).TA = some (g.dTA_dPH__HCO3 / g.dTC_dPH__HCO3) ∧
    (dcore_dparX__parY 2 7 g K0 FugFac).PH = some (1 / g.dTC_dPH__HCO3) ∧
    (dcore_dparX__parY 2 7 g K0 FugFac).FC = some (g.dFC_dPH__HCO3 / g.dTC_dPH__HCO3) ∧
    (dcore_dparX__parY 2 7 g K0 FugFac).CARB = some (g.dCARB_dPH__HCO3 / g.dTC_dPH__HCO3) ∧
    (dcore_dparX__parY 5 1 g K0 FugFac).TC = some (g.dTC_dPH__TA / g.dFC_dPH__TA) ∧
    (dcore_dparX__parY 5 1 g K0 FugFac).PH = some (1 / g.dFC_dPH__TA) ∧
    (dcore_dparX__parY 5 1 g K0 FugFac).CARB = some (g.dCARB_dPH__TA / g.dFC_dPH__TA) ∧
    (dcore_dparX__parY 5 1 g K0 FugFac).HCO3 = some (g.dHCO3_dPH__TA / g.dFC_dPH__TA) ∧
    (dcore_dparX__parY 5 2 g K0 FugFac).TA = some (g.dTA_dPH__TC / g.dFC_dPH__TC) ∧
    (dcore_dparX__parY 5 2 g K0 FugFac).PH = some (1 / g.dFC_dPH__TC) ∧
    (dcore_dparX__parY 5 2 g K0 FugFac).CARB = some (g.dCARB_dPH__TC / g.dFC_dPH__TC) ∧
    (dcore_dparX__parY 5 2 g K0 FugFac).HCO3 = some (g.dHCO3_dPH__TC / g.dFC_dPH__TC) ∧
    (dcore_dparX__parY 6 1 g K0 FugFac).TC = some (g.dTC_dPH__TA / g.dCARB_dPH__TA) ∧
    (dcore_dparX__parY 6 1 g K0 FugFac).PH = some (1 / g.dCARB_dPH__TA) ∧
    (dcore_dparX__parY 6 1 g K0 FugFac).FC = some (g.dFC_dPH__TA / g.dCARB_dPH__TA) ∧
    (dcore_dparX__parY 6 1 g K0 FugFac).HCO3 = some (g.dHCO3_dPH__TA / g.dCARB_dPH__TA) ∧
    (dcore_dparX__parY 6 2 g K0 FugFac).TA = some (g.dTA_dPH__TC / g.dCARB_dPH__TC) ∧
    (dcore_dparX__parY 6 2 g K0 FugFac).PH = some (1 / g.dCARB_dPH__TC) ∧
    (dcore_dparX__parY 6 2 g K0 FugFac).FC = some (g.dFC_dPH__TC / g.dCARB_dPH__TC) ∧
    (dcore_dparX__parY 6 2 g K0 FugFac).HCO3 = some (g.dHCO3_dPH__TC / g.dCARB_dPH__TC) ∧
    (dcore_dparX__parY 7 1 g K0 FugFac).TC = some (g.dTC_dPH__TA / g.dHCO3_dPH__TA) ∧
    (dcore_dparX__parY 7 1 g K0 FugFac).PH = some (1 / g.dHCO3_dPH__TA) ∧
    (dcore_dparX__parY 7 1 g K0 FugFac).FC = some (g.dFC_dPH__TA / g.dHCO3_dPH__TA) ∧
    (dcore_dparX__parY 7 1 g K0 FugFac).CARB = some (g.dCARB_dPH__TA / g.dHCO3_dPH__TA) ∧
    (dcore_dparX__parY 7 2 g K0 FugFac).TA = some (g.dTA_dPH__TC / g.dHCO3_dPH__TC) ∧
    (dcore_dparX__parY 7 2 g K0 FugFac).PH = some (1 / g.dHCO3_dPH__TC) ∧
    (dcore_dparX__parY 7 2 g K0 FugFac).FC = some (g.dFC_dPH__TC / g.dHCO3_dPH__TC) ∧
    (dcore_dparX__parY 7 2 g K0 FugFac).CARB = some (g.dCARB_dPH__TC / g.dHCO3_dPH__TC) ∧
    (coreAssign 4 1 g).TC = some (g.dTC_dPH__TA / g.dFC_dPH__TA) ∧
    (coreAssign 4 1 g).PH = some (1 / g.dFC_dPH__TA) ∧
    (coreAssign 4 1 g).CARB = some (g.dCARB_dPH__TA / g.dFC_dPH__TA) ∧
    (coreAssign 4 1 g).HCO3 = some (g.dHCO3_dPH__TA / g.dFC_dPH__TA) ∧
    (coreAssign 4 2 g).TA = some (g.dTA_dPH__TC / g.dFC_dPH__TC) ∧
    (coreAssign 4 2 g).PH = some (1 / g.dFC_dPH__TC) ∧
    (coreAssign 4 2 g).CARB = some (g.dCARB_dPH__TC / g.dFC_dPH__TC) ∧
    (coreAssign 4 2 g).HCO3 = some (g.dHCO3_dPH__TC / g.dFC_dPH__TC) ∧
    (coreAssign 8 1 g).TC = some (g.dTC_dPH__TA / g.dFC_dPH__TA) ∧
    (coreAssign 8 1 g).PH = some (1 / g.dFC_dPH__TA) ∧
    (coreAssign 8 1 g).CARB = some (g.dCARB_dPH__TA / g.dFC_dPH__TA) ∧
    (coreAssign 8 1 g).HCO3 = some (g.dHCO3_dPH__TA / g.dFC_dPH__TA) ∧
    (coreAssign 8 2 g).TA = some (g.dTA_dPH__TC / g.dFC_dPH__TC) ∧
    (coreAssign 8 2 g).PH = some (1 / g.dFC_dPH__TC) ∧
    (coreAssign 8 2 g).CARB = some (g.dCARB_dPH__TC / g.dFC_dPH__TC) ∧
    (coreAssign 8 2 g).HCO3 = some (g.dHCO3_dPH__TC / g.dFC_dPH__TC) := by
  exact ⟨rfl, rfl, rfl, rfl, rfl, rfl, rfl, rfl, rfl, rfl, rfl, rfl, rfl, rfl, rfl, rfl, rfl, rfl, rfl, rfl, rfl, rfl, rfl, rfl, rfl, rfl, rfl, rfl, rfl, rfl, rfl, rfl, rfl, rfl, rfl, rfl, rfl, rfl, rfl, rfl, rfl, rfl, rfl, rfl, rfl, rfl, rfl, rfl, rfl, rfl, rfl, rfl, rfl, rfl, rfl, rfl, rfl, rfl, rfl, rfl, rfl, rfl, rfl, rfl, rfl, rfl, rfl, rfl, rfl, rfl, rfl, rfl, rfl, rfl, rfl, rfl, rfl, rfl, rfl, rfl, rfl, rfl, rfl, rfl, rfl, rfl, rfl, rfl⟩

/-- C2: for every valid ordered pair of input type codes naming two
distinct core roles, the returned derivative of the parX variable with
respect to parX is exactly 1 (also through the pCO2 and CO2(aq)
corrections when parXtype is 4 or 8), and the derivative of the parY
variable with respect to parX is exactly 0. -/
theorem dcore_self_one_other_zero (x y : ℕ) (g : Grads) (K0 FugFac : ℚ)
    (hK : K0 ≠ 0) (hF : FugFac ≠ 0) (hv : validPair x y) :
    varAt x (dcore_dparX__parY x y g K0 FugFac) = some 1 ∧
    varAt y (dcore_dparX__parY x y g K0 FugFac) = some 0 := by
  obtain ⟨hx, hy, hr⟩ := hv
  fin_cases hx <;> fin_cases hy <;>
    first
    | exact absurd rfl hr
    | exact ⟨rfl, rfl⟩
    | constructor <;>
        · show Option.some _ = _
          norm_num [div_mul_cancel₀, mul_div_cancel_right₀, div_self, hF, hK]

/-- Witness for dcore_self_one_other_zero at (parXtype, parYtype) = (4, 2). -/
theorem dcore_self_one_other_zero_witness :
    ((1 : ℚ) ≠ 0 ∧ validPair 4 2) ∧
    (varAt 4 (dcore_dparX__parY 4 2 gOne 1 1) = some 1 ∧
     varAt 2 (dcore_dparX__parY 4 2 gOne 1 1) = some 0) :=
  ⟨⟨by norm_num, by decide⟩,
   dcore_self_one_other_zero 4 2 gOne 1 1 (by norm_num) (by norm_num) (by decide)⟩

/-- C4: the returned pCO2 derivative is the fCO2 derivative divided by
the fugacity factor and the returned CO2(aq) derivative is the fCO2
derivative times K0, for every input type pair, including after the
corrections applied when parXtype is 4 or 8 (the identities are
commutation facts of field division, so they need no nonzeroness
side conditions). -/
theorem dcore_PC_CO2_from_FC (x y : ℕ) (g : Grads) (K0 FugFac : ℚ) :
    (dcore_dparX__parY x y g K0 FugFac).PC =
      (dcore_dparX__parY x y g K0 FugFac).FC.map (fun v => v / FugFac) ∧
    (dcore_dparX__parY x y g K0 FugFac).CO2 =
      (dcore_dparX__parY x y g K0 FugFac).FC.map (fun v => v * K0) := by
  unfold dcore_dparX__parY
  cases h4 : (x == 4) <;> cases h8 : (x == 8) <;>
    cases hfc : (coreAssign x y g).FC <;>
      · simp only [mapAll, h4, h8, cond_false, cond_true, hfc,
          Option.map_none', Option.map_some', Option.some.injEq]
        refine ⟨?_, ?_⟩ <;> first | rfl | ring_nf

/-- Helper: a list whose dedup has at most one element has all its
members equal. -/
theorem dedup_length_le_one_eq {l : List ℕ} (h : l.dedup.length ≤ 1)
    {a b : ℕ} (ha : a ∈ l) (hb : b ∈ l) : a = b := by
  have ha' : a ∈ l.dedup := List.mem_dedup.2 ha
  have hb' : b ∈ l.dedup := List.mem_dedup.2 hb
  cases hd : l.dedup with
  | nil => rw [hd] at ha'; cases ha'
  | cons c rest =>
    rw [hd] at h ha' hb'
    cases rest with
    | nil =>
      simp only [List.mem_singleton] at ha' hb'
      omega
    | cons d rest2 => simp at h

/-- C6 counterexample: with a zero-size argument alongside a size-1
argument, the size check passes (only one distinct size other than 1)
and _flattenfirst returns successfully, but the zero-size argument is
returned with length 0, not broadcast to the common length npts = 1 as
the claim states. -/
theorem flattenfirst_zero_size_cex :
    _flattenfirst [[0], []] = Except.ok ([[0], []], 1) ∧
    ¬ ∀ l ∈ [[(0 : ℚ)], ([] : List ℚ)], l.length = 1 := by
  constructor
  · rfl
  · intro h
    simpa using h [] (by simp)

/-- C6 as amended: for a nonempty argument tuple, _flattenfirst raises
the input-validation error (with the message that inputs must all be
the same length as each other or of length 1) if and only if the
arguments have more than one distinct size other than 1; otherwise it
returns successfully with npts the maximum argument size and — provided
every argument is nonempty — every returned argument broadcast to the
common length npts. -/
theorem flattenfirst_broadcast (args : List (List ℚ)) (hne : args ≠ []) :
    ((_flattenfirst args =
        Except.error "Inputs must all be the same length as each other or of length 1.") ↔
      1 < (((args.map List.length).filter fun n => n ≠ 1).dedup).length) ∧
    ∀ out npts, _flattenfirst args = Except.ok (out, npts) →
      (args.map List.length).max? = some npts ∧
      out.length = args.length ∧
      ((∀ a ∈ args, a ≠ []) → ∀ l ∈ out, l.length = npts) := by
  have hlen : args.map List.length ≠ [] := by simpa using hne
  obtain ⟨m, hm⟩ : ∃ m, (args.map List.length).max? = some m := by
    cases hmx : (args.map List.length).max? with
    | none => exact absurd (List.max?_eq_none_iff.1 hmx) hlen
    | some m => exact ⟨m, rfl⟩
  have hmm := (List.max?_eq_some_iff (fun a => Nat.le_refl a)
      (fun a b => max_choice a b) (fun a b c => Nat.max_le)).1 hm
  by_cases hcond : (((args.map List.length).filter fun n => n ≠ 1).dedup).length ≤ 1
  · constructor
    · constructor
      · intro herr
        rw [_flattenfirst, if_pos hcond, hm] at herr
        exact absurd herr (by simp)
      · intro hgt
        omega
    · intro out npts hok
      rw [_flattenfirst, if_pos hcond, hm] at hok
      simp only [Except.ok.injEq, Prod.mk.injEq] at hok
      obtain ⟨hout, hnpts⟩ := hok
      subst hnpts
      refine ⟨hm, ?_, ?_⟩
      · rw [← hout]
        simp
      · intro hnz l hl
        rw [← hout] at hl
        simp only [List.mem_map] at hl
        obtain ⟨a, haargs, rfl⟩ := hl
        by_cases h1 : a.length = 1
        · simp [h1]
        · simp only [if_neg h1]
          have hmem : a.length ∈ args.map List.length :=
            List.mem_map_of_mem _ haargs
          by_cases hm1 : m = 1
          · have hle : a.length ≤ m := hmm.2 _ hmem
            have : a.length = 0 := by omega
            exact absurd (List.length_eq_zero.1 this) (hnz a haargs)
          · have hmf : m ∈ (args.map List.length).filter fun n => n ≠ 1 := by
              simp only [List.mem_filter, decide_eq_true_eq]
              exact ⟨hmm.1, hm1⟩
            have haf : a.length ∈ (args.map List.length).filter fun n => n ≠ 1 := by
              simp only [List.mem_filter, decide_eq_true_eq]
              exact ⟨hmem, h1⟩
            exact dedup_length_le_one_eq hcond haf hmf
  · refine ⟨⟨fun _ => by omega, fun _ => ?_⟩, fun out npts hok => ?_⟩
    · rw [_flattenfirst, if_neg hcond]
    · rw [_flattenfirst, if_neg hcond] at hok
      exact absurd hok (by simp)

/-- Witness for flattenfirst_broadcast on a concrete well-formed tuple. -/
theorem flattenfirst_broadcast_witness :
    (([[1, 2], [5]] : List (List ℚ)) ≠ []) ∧
    (((_flattenfirst [[1, 2], [5]] =
        Except.error "Inputs must all be the same length as each other or of length 1.") ↔
      1 < ((([[1, 2], [5]] : List (List ℚ)).map List.length).filter fun n => n ≠ 1).dedup.length) ∧
    ∀ out npts, _flattenfirst [[1, 2], [5]] = Except.ok (out, npts) →
      (([[1, 2], [5]] : List (List ℚ)).map List.length).max? = some npts ∧
      out.length = ([[1, 2], [5]] : List (List ℚ)).length ∧
      ((∀ a ∈ ([[1, 2], [5]] : List (List ℚ)), a ≠ []) → ∀ l ∈ out, l.length = npts)) :=
  ⟨by simp, flattenfirst_broadcast [[1, 2], [5]] (by simp)⟩

/-- C7 counterexample: with grads_wrt the supported single name SAL and
grads_of a list containing a non-gradable name, the call is indeed
rejected, but by the bare assert of the single-string guard (which
tests grads_of against can_grad_wrt), not with either descriptive
message the claim specifies. -/
theorem inputs_grads_of_bare_assert_cex :
    can_grad_wrt.contains "SAL" = true ∧
    inputsChecks ["OmegaARin"] (.list ["XYZ"]) (.str "SAL") =
      Except.error "AssertionError" ∧
    "AssertionError" ≠ "Invalid `grads_of` requested." ∧
    "AssertionError" ≠ "Invalid `grads_wrt` requested." := by
  refine ⟨by decide, ?_, by decide, by decide⟩
  simp [inputsChecks, pyMem]

/-- C7 as amended: an invalid grads_wrt list is rejected with the
descriptive grads_wrt message before any derivative is computed; an
invalid grads_of list is always rejected before any derivative is
computed, and carries the descriptive grads_of message whenever
grads_wrt was given as a list of supported names or as the string
"all"; when grads_wrt is any single non-all string and grads_of is a
list, the rejection is the bare AssertionError of the single-string
guard instead. -/
theorem inputsChecks_rejects_invalid (gradables : List String)
    (grads_of grads_wrt : PyArg) :
    (∀ l, grads_wrt = .list l → (∃ n ∈ l, n ∉ can_grad_wrt) →
      inputsChecks gradables grads_of grads_wrt =
        Except.error "Invalid `grads_wrt` requested.") ∧
    (∀ l, grads_of = .list l → (∃ n ∈ l, n ∉ gradables) →
      ∃ msg, inputsChecks gradables grads_of grads_wrt = Except.error msg) ∧
    (∀ l l2, grads_of = .list l → grads_wrt = .list l2 →
      (∀ n ∈ l2, n ∈ can_grad_wrt) →
      (∃ n ∈ l, n ∉ gradables) →
      inputsChecks gradables grads_of grads_wrt =
        Except.error "Invalid `grads_of` requested.") ∧
    (∀ l, grads_of = .list l → grads_wrt = .str "all" →
      (∃ n ∈ l, n ∉ gradables) →
      inputsChecks gradables grads_of grads_wrt =
        Except.error "Invalid `grads_of` requested.") ∧
    (∀ s l, grads_wrt = .str s → s ≠ "all" → grads_of = .list l →
      inputsChecks gradables grads_of grads_wrt =
        Except.error "AssertionError") := by
  refine ⟨?_, ?_, ?_, ?_, ?_⟩
  · rintro l rfl ⟨n, hn, hnc⟩
    have hb : ¬ ∀ x ∈ l, x ∈ can_grad_wrt := fun hf => hnc (hf n hn)
    simp [inputsChecks, hb]
  · rintro l rfl ⟨n, hn, hng⟩
    have hbad : ¬ ∀ x ∈ l, x ∈ gradables := fun hf => hng (hf n hn)
    cases grads_wrt with
    | str s =>
      by_cases hs : s = "all"
      · subst hs
        exact ⟨"Invalid `grads_of` requested.",
          by simp [inputsChecks, inputsChecksOf, pyMem, hbad]⟩
      · exact ⟨"AssertionError", by simp [inputsChecks, pyMem, hs]⟩
    | list l2 =>
      by_cases hall : ∀ x ∈ l2, x ∈ can_grad_wrt
      · exact ⟨"Invalid `grads_of` requested.",
          by simp [inputsChecks, inputsChecksOf, hall, hbad] <;> exact hall⟩
      · exact ⟨"Invalid `grads_wrt` requested.", by simp [inputsChecks, hall]⟩
  · rintro l l2 rfl rfl hgood ⟨n, hn, hng⟩
    have hbad : ¬ ∀ x ∈ l, x ∈ gradables := fun hf => hng (hf n hn)
    simp [inputsChecks, inputsChecksOf, hgood, hbad] <;> exact hgood
  · rintro l rfl rfl ⟨n, hn, hng⟩
    have hbad : ¬ ∀ x ∈ l, x ∈ gradables := fun hf => hng (hf n hn)
    simp [inputsChecks, inputsChecksOf, pyMem, hbad]
  · rintro s l rfl hs rfl
    simp [inputsChecks, pyMem, hs]

/-- Witness for inputsChecks_rejects_invalid: a bad grads_wrt list gets
the grads_wrt message; a bad grads_of list gets the grads_of message
behind a good grads_wrt list and behind grads_wrt = "all"; and any list
grads_of behind the non-all string grads_wrt "SAL" gets the bare
AssertionError. -/
theorem inputsChecks_rejects_invalid_witness :
    inputsChecks ["OmegaARin"] (.list ["OmegaARin"]) (.list ["XYZ"]) =
      Except.error "Invalid `grads_wrt` requested." ∧
    inputsChecks ["OmegaARin"] (.list ["XYZ"]) (.list ["SAL"]) =
      Except.error "Invalid `grads_of` requested." ∧
    inputsChecks ["OmegaARin"] (.list ["XYZ"]) (.str "all") =
      Except.error "Invalid `grads_of` requested." ∧
    inputsChecks ["OmegaARin"] (.list ["XYZ"]) (.str "TEMPIN") =
      Except.error "AssertionError" :=
  ⟨(inputsChecks_rejects_invalid ["OmegaARin"] (.list ["OmegaARin"]) (.list ["XYZ"])).1
      ["XYZ"] rfl ⟨"XYZ", by simp, by simp [can_grad_wrt]⟩,
   (inputsChecks_rejects_invalid ["OmegaARin"] (.list ["XYZ"]) (.list ["SAL"])).2.2.1
      ["XYZ"] ["SAL"] rfl rfl (by simp [can_grad_wrt]) ⟨"XYZ", by simp, by simp⟩,
   (inputsChecks_rejects_invalid ["OmegaARin"] (.list ["XYZ"]) (.str "all")).2.2.2.1
      ["XYZ"] rfl rfl ⟨"XYZ", by simp, by simp⟩,
   (inputsChecks_rejects_invalid ["OmegaARin"] (.list ["XYZ"]) (.str "TEMPIN")).2.2.2.2
      "TEMPIN" ["XYZ"] rfl (by simp) rfl⟩

/-- C9: the single-string guard of uncertainty.inputs tests grads_of,
not grads_wrt, against the supported-input list, so the valid request
grads_wrt = SAL (a supported input) with grads_of a list raises a bare
AssertionError, for every gradables list and every grads_of list. -/
theorem inputs_str_guard_tests_grads_of (gradables : List String) (l : List String) :
    can_grad_wrt.contains "SAL" = true ∧
    inputsChecks gradables (.list l) (.str "SAL") = Except.error "AssertionError" := by
  refine ⟨by decide, ?_⟩
  simp [inputsChecks, pyMem]

end PyCO2SYS
